import Mathlib

/-!
Shallow embedding of the in-memory performance-metrics aggregator
(`PerformanceMonitor` in `src/client/src/test/setup.js`) and of the
performance query routes (`src/unnamed/part_000`).

Modelling conventions:
* JS numbers are modelled as `ℚ`; timestamps (`Date.now()`) as `ℤ`.
  A JS division whose denominator is `0` yields a non-finite value
  (`NaN` or `Infinity`); such results are modelled as `none : Option ℚ`.
* JS objects used as dictionaries are modelled as insertion-ordered
  association lists (`List (κ × ν)`).
* `Array.prototype.push` followed by a conditional `shift` is modelled
  by `pushBounded`.
* `Array.prototype.sort` with a numeric comparator (stable in modern
  engines) is modelled by `List.insertionSort`, which is stable for
  the reflexive comparison relations used here.
* Environment reads (`Date.now()`, `process.cpuUsage()`) are passed in
  as explicit arguments.
-/

/-- One entry of `metrics.requests.responseTimes`. -/
structure RTEntry where
  timestamp : ℤ
  duration : ℚ
  method : String
  path : String
  statusCode : ℕ
deriving DecidableEq, Repr

/-- One entry of `metrics.requests.slowRequests` or `metrics.requests.errors`
(both push the same fields of the incoming request data). -/
structure ReqRecord where
  id : String
  method : String
  path : String
  duration : ℚ
  statusCode : ℕ
  timestamp : ℤ
  userAgent : String
  ip : String
  user : String
deriving DecidableEq, Repr

/-- One entry of `metrics.database.queries.history` /
`metrics.database.performance.slowQueries`. -/
structure QueryEntry where
  query : String
  duration : ℚ
  timestamp : ℤ
  id : String
deriving DecidableEq, Repr

/-- One per-path aggregate of `metrics.api.endpoints` (the JS object is keyed
by `path` alone; `method` is just a stored field).  `fastest` starts at
`Infinity`, modelled by `none`. -/
structure Endpoint where
  method : String
  totalRequests : ℕ
  totalDuration : ℚ
  averageDuration : ℚ
  statusCodes : List (ℕ × ℕ)
  slowest : ℚ
  fastest : Option ℚ
deriving DecidableEq, Repr

/-- The `metrics.requests` record. -/
structure RequestsState where
  total : ℕ
  byMethod : List (String × ℕ)
  byRoute : List (String × ℕ)
  byStatus : List (ℕ × ℕ)
  responseTimes : List RTEntry
  slowRequests : List ReqRecord
  errors : List ReqRecord
deriving DecidableEq, Repr

/-- The `metrics.database.queries` record. -/
structure QueriesState where
  total : ℕ
  slow : ℕ
  averageTime : ℚ
  history : List QueryEntry
deriving DecidableEq, Repr

/-- The `metrics.database.performance` record (connection-pool constants
elided; only `slowQueries` is ever updated). -/
structure DbPerfState where
  averageQueryTime : ℚ
  slowQueries : List QueryEntry
deriving DecidableEq, Repr

/-- The `metrics.database` record (static `connections` sub-record elided). -/
structure DatabaseState where
  queries : QueriesState
  performance : DbPerfState
deriving DecidableEq, Repr

/-- One entry of `metrics.resources.cpu.history`. -/
structure CpuSample where
  timestamp : ℤ
  usage : ℚ
  user : ℚ
  system : ℚ
deriving DecidableEq, Repr

/-- The `metrics.resources.cpu` record. -/
structure CpuState where
  history : List CpuSample
  currentUser : ℚ
  currentSystem : ℚ
  currentIdle : ℚ
  usage : ℚ
deriving DecidableEq, Repr

/-- One entry of `metrics.resources.memory.process.history`. -/
structure MemSample where
  timestamp : ℤ
  rss : ℚ
  heapUsed : ℚ
  heapTotal : ℚ
deriving DecidableEq, Repr

/-- One entry of `metrics.resources.memory.system.history`. -/
structure SysMemSample where
  timestamp : ℤ
  total : ℚ
  free : ℚ
  used : ℚ
  percentage : ℚ
deriving DecidableEq, Repr

/-- The `metrics.resources.memory` record (flattened). -/
structure MemoryState where
  heapUsed : ℚ
  heapTotal : ℚ
  heapExternal : ℚ
  heapHistory : List MemSample
  processRss : ℚ
  processHeapUsed : ℚ
  processHeapTotal : ℚ
  processExternal : ℚ
  processHistory : List MemSample
  systemTotal : ℚ
  systemFree : ℚ
  systemUsed : ℚ
  systemPercentage : ℚ
  systemHistory : List SysMemSample
deriving DecidableEq, Repr

/-- One entry of `metrics.resources.network.history`. -/
structure NetSample where
  timestamp : ℤ
  bytesIn : ℚ
  bytesOut : ℚ
  bytesInPerSecond : ℚ
  bytesOutPerSecond : ℚ
deriving DecidableEq, Repr

/-- The `metrics.resources.network` record. -/
structure NetworkState where
  bytesIn : ℚ
  bytesOut : ℚ
  history : List NetSample
deriving DecidableEq, Repr

/-- The `metrics.resources` record (static `disk` sub-record elided). -/
structure ResourcesState where
  cpu : CpuState
  memory : MemoryState
  network : NetworkState
deriving DecidableEq, Repr

/-- The `metrics.api` record (static `rateLimit`/`cache` sub-records elided;
only `endpoints` is ever updated). -/
structure ApiState where
  endpoints : List (String × Endpoint)
deriving DecidableEq, Repr

/-- The `metrics` object. -/
structure Metrics where
  requests : RequestsState
  resources : ResourcesState
  database : DatabaseState
  api : ApiState
deriving DecidableEq, Repr

/-- The whole `PerformanceMonitor` mutable state.  `lastCpuSample` stores the
cumulative `process.cpuUsage()` snapshot taken at the end of the previous
CPU tick. -/
structure MonitorState where
  metrics : Metrics
  startTime : ℤ
  lastCpuUser : ℚ
  lastCpuSystem : ℚ
deriving DecidableEq, Repr

/-- The state built by the constructor: all counters zero, all histories
empty (`now` is the constructor-time `Date.now()`, `cpuUser`/`cpuSystem`
the constructor-time cumulative `process.cpuUsage()`). -/
def initialState (now : ℤ) (cpuUser cpuSystem : ℚ) : MonitorState where
  metrics :=
    { requests :=
        { total := 0, byMethod := [], byRoute := [], byStatus := []
          responseTimes := [], slowRequests := [], errors := [] }
      resources :=
        { cpu := { history := [], currentUser := 0, currentSystem := 0
                   currentIdle := 100, usage := 0 }
          memory :=
            { heapUsed := 0, heapTotal := 0, heapExternal := 0, heapHistory := []
              processRss := 0, processHeapUsed := 0, processHeapTotal := 0
              processExternal := 0, processHistory := []
              systemTotal := 0, systemFree := 0, systemUsed := 0
              systemPercentage := 0, systemHistory := [] }
          network := { bytesIn := 0, bytesOut := 0, history := [] } }
      database :=
        { queries := { total := 0, slow := 0, averageTime := 0, history := [] }
          performance := { averageQueryTime := 0, slowQueries := [] } }
      api := { endpoints := [] } }
  startTime := now
  lastCpuUser := cpuUser
  lastCpuSystem := cpuSystem

/-- Model of `arr.push(x); if (arr.length > cap) arr.shift();`. -/
def pushBounded {α : Type} (cap : ℕ) (x : α) (l : List α) : List α :=
  let grown := l ++ [x]
  if cap < grown.length then grown.drop 1 else grown

/-- Model of the JS property read `m[k]` on an object used as a dictionary:
the value stored under the first (unique) occurrence of the key. -/
def assocFind {κ ν : Type} [DecidableEq κ] (k : κ) : List (κ × ν) → Option ν
  | [] => none
  | p :: t => if p.1 = k then some p.2 else assocFind k t

/-- Model of `if (!m[k]) m[k] = 0; m[k]++;` on a JS object used as a counter
map (a fresh key is appended, an existing key is updated in place). -/
def jsIncr {κ : Type} [DecidableEq κ] (m : List (κ × ℕ)) (k : κ) : List (κ × ℕ) :=
  match assocFind k m with
  | some _ => m.map fun p => if p.1 = k then (p.1, p.2 + 1) else p
  | none => m ++ [(k, 1)]

/-- The fresh aggregate created by `trackApiEndpoint` for an unseen path. -/
def emptyEndpoint (method : String) : Endpoint where
  method := method
  totalRequests := 0
  totalDuration := 0
  averageDuration := 0
  statusCodes := []
  slowest := 0
  fastest := none

/-- The in-place update `trackApiEndpoint` performs on the aggregate found
(or just created) for the path of the request. -/
def updateEndpoint (duration : ℚ) (statusCode : ℕ) (e : Endpoint) : Endpoint :=
  let total := e.totalRequests + 1
  let totalDur := e.totalDuration + duration
  { e with
    totalRequests := total
    totalDuration := totalDur
    averageDuration := totalDur / (total : ℚ)
    statusCodes := jsIncr e.statusCodes statusCode
    slowest := if e.slowest < duration then duration else e.slowest
    fastest :=
      match e.fastest with
      | none => some duration
      | some f => if duration < f then some duration else some f }

/-- Model of `PerformanceMonitor.trackApiEndpoint(path, method, duration,
statusCode)` acting on `metrics.api.endpoints`.  The JS object is keyed by
`path` only; `method` is merely stored on first creation. -/
def trackApiEndpoint (path method : String) (duration : ℚ) (statusCode : ℕ)
    (eps : List (String × Endpoint)) : List (String × Endpoint) :=
  match assocFind path eps with
  | some _ =>
      eps.map fun p =>
        if p.1 = path then (p.1, updateEndpoint duration statusCode p.2) else p
  | none => eps ++ [(path, updateEndpoint duration statusCode (emptyEndpoint method))]

/-- The request data handed to `recordRequest` by the middleware. -/
structure RequestData where
  id : String
  method : String
  path : String
  statusCode : ℕ
  duration : ℚ
  userAgent : String
  ip : String
  user : String
deriving DecidableEq, Repr

/-- The response-time entry pushed by `recordRequest`. -/
def mkRTEntry (now : ℤ) (rd : RequestData) : RTEntry where
  timestamp := now
  duration := rd.duration
  method := rd.method
  path := rd.path
  statusCode := rd.statusCode

/-- The record pushed into `slowRequests` / `errors` by `recordRequest`. -/
def mkReqRecord (now : ℤ) (rd : RequestData) : ReqRecord where
  id := rd.id
  method := rd.method
  path := rd.path
  duration := rd.duration
  statusCode := rd.statusCode
  timestamp := now
  userAgent := rd.userAgent
  ip := rd.ip
  user := rd.user

/-- Model of `PerformanceMonitor.recordRequest(requestData)`, with `now` the
value `Date.now()` returns during the call. -/
def recordRequest (now : ℤ) (rd : RequestData) (s : MonitorState) : MonitorState :=
  let r0 := s.metrics.requests
  let r1 : RequestsState :=
    { r0 with
      total := r0.total + 1
      byMethod := jsIncr r0.byMethod rd.method
      byStatus := jsIncr r0.byStatus rd.statusCode
      responseTimes := pushBounded 1000 (mkRTEntry now rd) r0.responseTimes }
  let r2 : RequestsState :=
    if 1000 < rd.duration then
      { r1 with slowRequests := pushBounded 50 (mkReqRecord now rd) r1.slowRequests }
    else r1
  let eps := trackApiEndpoint rd.path rd.method rd.duration rd.statusCode
    s.metrics.api.endpoints
  let r3 : RequestsState :=
    if 400 ≤ rd.statusCode then
      { r2 with errors := pushBounded 100 (mkReqRecord now rd) r2.errors }
    else r2
  { s with metrics := { s.metrics with requests := r3, api := { endpoints := eps } } }

/-- The inputs of one `trackDatabaseQuery(query, duration)` call (`now` is
the `Date.now()` read, `id` the generated UUID). -/
structure QueryIn where
  query : String
  duration : ℚ
  now : ℤ
  id : String
deriving DecidableEq, Repr

/-- Model of `PerformanceMonitor.trackDatabaseQuery(query, duration)`. -/
def trackDatabaseQuery (qi : QueryIn) (s : MonitorState) : MonitorState :=
  let q0 := s.metrics.database.queries
  let total := q0.total + 1
  let queryData : QueryEntry :=
    { query := qi.query.take 100, duration := qi.duration
      timestamp := qi.now, id := qi.id }
  let q1 : QueriesState := { q0 with total := total, history := q0.history ++ [queryData] }
  let q2 : QueriesState := if 100 < qi.duration then { q1 with slow := q1.slow + 1 } else q1
  let perf :=
    if 100 < qi.duration then
      { s.metrics.database.performance with
        slowQueries := pushBounded 50 queryData s.metrics.database.performance.slowQueries }
    else s.metrics.database.performance
  let q3 : QueriesState :=
    { q2 with averageTime := (q0.averageTime * ((total : ℚ) - 1) + qi.duration) / (total : ℚ) }
  { s with metrics := { s.metrics with database := { queries := q3, performance := perf } } }

/-- Model of `PerformanceMonitor.sampleCpuUsage()`.  `dUser`/`dSystem` are the
fields of `process.cpuUsage(this.lastCpuSample)` (microseconds of CPU time
consumed since the previous sample); `newUser`/`newSystem` the fresh
cumulative `process.cpuUsage()` snapshot stored for the next tick. -/
def sampleCpuUsage (now : ℤ) (dUser dSystem newUser newSystem : ℚ)
    (s : MonitorState) : MonitorState :=
  let totalUsage := dUser + dSystem
  let usage := totalUsage / 1000000 * 100
  let cpu : CpuState :=
    { history := pushBounded 100
        { timestamp := now, usage := usage, user := dUser, system := dSystem }
        s.metrics.resources.cpu.history
      currentUser := dUser
      currentSystem := dSystem
      currentIdle := max 0 (1000000 - totalUsage)
      usage := usage }
  { s with
    metrics := { s.metrics with resources := { s.metrics.resources with cpu := cpu } }
    lastCpuUser := newUser
    lastCpuSystem := newSystem }

/-- Model of JavaScript `Math.round` on the (rational-modelled) numbers in use. -/
def jsRound (x : ℚ) : ℚ := ((⌊x + 0.5⌋ : ℤ) : ℚ)

/-- Model of the `Math.round(x * 100) / 100` two-decimal rounding idiom. -/
def round2 (x : ℚ) : ℚ := jsRound (x * 100) / 100

/-- Model of a JS division that may be non-finite: `jsDiv a b = none` when the
denominator is zero (JS yields `NaN` or `Infinity` there). -/
def jsDiv (a b : ℚ) : Option ℚ := if b = 0 then none else some (a / b)

/-- Model of `arr[Math.floor(arr.length * p)] || 0` applied to an
ascending-sorted duration array. -/
def pctPick (sorted : List ℚ) (p : ℚ) : ℚ :=
  sorted.getD ⌊(sorted.length : ℚ) * p⌋₊ 0

/-- Model of the `responseTimes.map(req => req.duration).sort((a, b) => a - b)`
ascending numeric sort (stable, as in modern JS engines). -/
def sortAsc (l : List ℚ) : List ℚ := List.insertionSort (· ≤ ·) l

/-- The snapshot object returned by `getStats` (the static sub-objects are
carried over as values). -/
structure Stats where
  uptime : ℚ
  requestRate : Option ℚ
  totalRequests : ℕ
  errorRate : Option ℚ
  averageResponseTime : ℚ
  p50 : ℚ
  p95 : ℚ
  p99 : ℚ
  resources : ResourcesState
  database : DatabaseState
  endpoints : List (String × Endpoint)
  slowRequests : List ReqRecord
  errors : List ReqRecord
deriving DecidableEq, Repr

/-- Model of `PerformanceMonitor.getStats()`, with `now` the `Date.now()`
read.  `requestRate` and `errorRate` are `Option`-valued because their JS
divisions can be non-finite (`0/0 = NaN`). -/
def getStats (now : ℤ) (s : MonitorState) : Stats :=
  let uptime : ℚ := (((now - s.startTime) : ℤ) : ℚ) / 1000
  let requestRate := jsDiv (s.metrics.requests.total : ℚ) uptime
  let errorRate :=
    (jsDiv (s.metrics.requests.errors.length : ℚ) (s.metrics.requests.total : ℚ)).map (· * 100)
  let rts := s.metrics.requests.responseTimes
  let avgResponseTime : ℚ :=
    if 0 < rts.length then
      rts.foldl (fun sum req => sum + req.duration) 0 / (rts.length : ℚ)
    else 0
  let responseTimes := sortAsc (rts.map (·.duration))
  { uptime := uptime
    requestRate := requestRate.map round2
    totalRequests := s.metrics.requests.total
    errorRate := errorRate.map round2
    averageResponseTime := round2 avgResponseTime
    p50 := round2 (pctPick responseTimes 0.5)
    p95 := round2 (pctPick responseTimes 0.95)
    p99 := round2 (pctPick responseTimes 0.99)
    resources := s.metrics.resources
    database := s.metrics.database
    endpoints := s.metrics.api.endpoints
    slowRequests := s.metrics.requests.slowRequests.take 10
    errors := s.metrics.requests.errors.take 10 }

/-- State-threaded form of `getStats`: the method performs no assignment to
`this`, so the state component is returned unchanged. -/
def getStatsOp (now : ℤ) (s : MonitorState) : MonitorState × Stats :=
  (s, getStats now s)

/-- Model of `needle` occurring as a contiguous run inside `hay`
(JS `String.prototype.includes` on the character lists). -/
def listIncludes {α : Type} [DecidableEq α] (needle : List α) : List α → Bool
  | [] => needle.isEmpty
  | h :: t => needle.isPrefixOf (h :: t) || listIncludes needle t

/-- Model of `hay.includes(needle)` for JS strings. -/
def strIncludes (hay needle : String) : Bool := listIncludes needle.data hay.data

/-- The query parameters of `GET /api/performance/requests` after the
destructuring defaults (`limit = 50`, `sortBy = "timestamp"`,
`sortOrder = "desc"`; the three filters absent by default). -/
structure ReqQuery where
  limit : ℕ
  sortBy : String
  sortOrder : String
  statusCode : Option String
  method : Option String
  path : Option String
deriving DecidableEq, Repr

/-- The defaulted query of a parameterless `GET /api/performance/requests`. -/
def defaultReqQuery : ReqQuery :=
  { limit := 50, sortBy := "timestamp", sortOrder := "desc"
    statusCode := none, method := none, path := none }

/-- The numeric sort key `a[sortBy] || 0` read off a response-time entry
(a non-numeric or unknown field falls back to `0`, which under a stable
sort leaves the relative order unchanged, as V8 does for a useless
comparator). -/
def rtKey (k : String) (r : RTEntry) : ℚ :=
  if k = "timestamp" then (r.timestamp : ℚ)
  else if k = "duration" then r.duration
  else if k = "statusCode" then (r.statusCode : ℚ)
  else 0

/-- Model of `requests.sort((a, b) => sortOrder === "asc" ? aValue - bValue :
bValue - aValue)` (stable comparator sort). -/
def jsSortEntries (k ord : String) (l : List RTEntry) : List RTEntry :=
  if ord = "asc" then List.insertionSort (fun a b => rtKey k a ≤ rtKey k b) l
  else List.insertionSort (fun a b => rtKey k b ≤ rtKey k a) l

/-- Model of `durations.length > 0 ? Math.min(...durations) : 0`. -/
def jsMinList : List ℚ → ℚ
  | [] => 0
  | h :: t => t.foldl min h

/-- Model of `durations.length > 0 ? Math.max(...durations) : 0`. -/
def jsMaxList : List ℚ → ℚ
  | [] => 0
  | h :: t => t.foldl max h

/-- The `data` payload of the `GET /api/performance/requests` response. -/
structure ReqResponse where
  requests : List RTEntry
  total : ℕ
  average : ℚ
  min : ℚ
  max : ℚ
  p50 : ℚ
  p95 : ℚ
  p99 : ℚ
deriving DecidableEq, Repr

/-- Model of the `GET /api/performance/requests` handler.  The local variable
`requests` starts as a live alias of `metrics.requests.responseTimes`; each
applied filter rebinds it to a fresh array, after which the in-place
`requests.sort(...)` only reorders the local copy.  When no filter parameter
is supplied, the sort reorders the live history of the monitor, which the returned
state reflects. -/
def handlePerfRequests (q : ReqQuery) (s : MonitorState) : MonitorState × ReqResponse :=
  let base := s.metrics.requests.responseTimes
  let f1 := match q.statusCode with
    | some sc => base.filter fun r => Nat.repr r.statusCode == sc
    | none => base
  let f2 := match q.method with
    | some m => f1.filter fun r => r.method == m.toUpper
    | none => f1
  let f3 := match q.path with
    | some p => f2.filter fun r => strIncludes r.path p
    | none => f2
  let sorted := jsSortEntries q.sortBy q.sortOrder f3
  let sliced := sorted.take q.limit
  let durations := sliced.map (·.duration)
  let avgDuration : ℚ :=
    if 0 < durations.length then durations.foldl (· + ·) 0 / (durations.length : ℚ) else 0
  let minDuration := jsMinList durations
  let maxDuration := jsMaxList durations
  let dSorted := sortAsc durations
  let noFilterApplied := q.statusCode.isNone && q.method.isNone && q.path.isNone
  let s2 :=
    if noFilterApplied then
      { s with metrics :=
          { s.metrics with requests := { s.metrics.requests with responseTimes := sorted } } }
    else s
  (s2,
   { requests := sliced
     total := sliced.length
     average := round2 avgDuration
     min := round2 minDuration
     max := round2 maxDuration
     p50 := round2 (pctPick dSorted 0.5)
     p95 := round2 (pctPick dSorted 0.95)
     p99 := round2 (pctPick dSorted 0.99) })

/-- Replace the response-time history of a monitor state (used to state
frame properties and to build concrete test states). -/
def setResponseTimes (s : MonitorState) (l : List RTEntry) : MonitorState :=
  { s with metrics :=
      { s.metrics with requests := { s.metrics.requests with responseTimes := l } } }

/-- A concrete request datum with the given duration and status code. -/
def rdOf (d : ℚ) (code : ℕ) : RequestData :=
  { id := "req-1", method := "GET", path := "/a", statusCode := code
    duration := d, userAgent := "ua", ip := "127.0.0.1", user := "anonymous" }

/-- A concrete database-query input with the given duration. -/
def qiOf (d : ℚ) : QueryIn :=
  { query := "SELECT 1", duration := d, now := 0, id := "q-1" }

/-- Response-time entries with the given durations (shared metadata). -/
def mkRTs (ds : List ℚ) : List RTEntry :=
  ds.map fun d =>
    { timestamp := 0, duration := d, method := "GET", path := "/a", statusCode := 200 }

/-- A monitor state whose retained response-time durations are
`[10, 20, 30, 40, 50]`. -/
def fiveState : MonitorState :=
  setResponseTimes (initialState 0 0 0) (mkRTs [10, 20, 30, 40, 50])

/-- A response-time entry with timestamp 1. -/
def rtA : RTEntry :=
  { timestamp := 1, duration := 30, method := "GET", path := "/a", statusCode := 200 }

/-- A response-time entry with timestamp 2. -/
def rtB : RTEntry :=
  { timestamp := 2, duration := 10, method := "GET", path := "/b", statusCode := 200 }

/-- A monitor state holding the two response-time entries `[rtA, rtB]` in
their insertion order. -/
def ceState : MonitorState := setResponseTimes (initialState 0 0 0) [rtA, rtB]

/-- The endpoints map after a GET and then a POST request to the same path. -/
def epsTwoMethods : List (String × Endpoint) :=
  trackApiEndpoint "/a" "POST" 7 200 (trackApiEndpoint "/a" "GET" 5 200 [])

/-- Model of `PerformanceMonitor.reset()`, with `now` the `Date.now()` read. -/
def reset (now : ℤ) (s : MonitorState) : MonitorState :=
  { s with
    metrics :=
      { s.metrics with
        requests :=
          { total := 0, byMethod := [], byRoute := [], byStatus := []
            responseTimes := [], slowRequests := [], errors := [] }
        database :=
          { queries := { total := 0, slow := 0, averageTime := 0, history := [] }
            performance := { s.metrics.database.performance with slowQueries := [] } } }
    startTime := now }

/-! Helper lemmas describing the ingestion operations field by field. -/

lemma recordRequest_fields (now : ℤ) (rd : RequestData) (s : MonitorState) :
    (recordRequest now rd s).metrics.requests.total = s.metrics.requests.total + 1 ∧
    (recordRequest now rd s).metrics.requests.responseTimes =
      pushBounded 1000 (mkRTEntry now rd) s.metrics.requests.responseTimes ∧
    (recordRequest now rd s).metrics.requests.slowRequests =
      (if 1000 < rd.duration then
        pushBounded 50 (mkReqRecord now rd) s.metrics.requests.slowRequests
      else s.metrics.requests.slowRequests) ∧
    (recordRequest now rd s).metrics.requests.errors =
      (if 400 ≤ rd.statusCode then
        pushBounded 100 (mkReqRecord now rd) s.metrics.requests.errors
      else s.metrics.requests.errors) ∧
    (recordRequest now rd s).metrics.api.endpoints =
      trackApiEndpoint rd.path rd.method rd.duration rd.statusCode
        s.metrics.api.endpoints := by
  unfold recordRequest
  by_cases h1 : 1000 < rd.duration <;> by_cases h2 : 400 ≤ rd.statusCode <;>
    simp [h1, h2]

lemma trackDatabaseQuery_fields (qi : QueryIn) (s : MonitorState) :
    (trackDatabaseQuery qi s).metrics.database.queries.total =
      s.metrics.database.queries.total + 1 ∧
    (trackDatabaseQuery qi s).metrics.database.queries.averageTime =
      (s.metrics.database.queries.averageTime *
         (((s.metrics.database.queries.total + 1 : ℕ) : ℚ) - 1) + qi.duration) /
        ((s.metrics.database.queries.total + 1 : ℕ) : ℚ) ∧
    (trackDatabaseQuery qi s).metrics.database.performance.slowQueries =
      (if 100 < qi.duration then
        pushBounded 50
          { query := qi.query.take 100, duration := qi.duration
            timestamp := qi.now, id := qi.id }
          s.metrics.database.performance.slowQueries
      else s.metrics.database.performance.slowQueries) := by
  unfold trackDatabaseQuery
  by_cases h : 100 < qi.duration <;> simp [h]

/-- C1 (amended): a request is appended to the slow-request history exactly
when its duration strictly exceeds 1000 ms; a duration of 1000 ms or less
(in particular exactly 1000 ms) leaves the slow-request history unchanged. -/
theorem C1_slow_threshold (now : ℤ) (rd : RequestData) (s : MonitorState) :
    (1000 < rd.duration →
      (recordRequest now rd s).metrics.requests.slowRequests =
        pushBounded 50 (mkReqRecord now rd) s.metrics.requests.slowRequests) ∧
    (rd.duration ≤ 1000 →
      (recordRequest now rd s).metrics.requests.slowRequests =
        s.metrics.requests.slowRequests) := by
  obtain ⟨-, -, hslow, -, -⟩ := recordRequest_fields now rd s
  constructor
  · intro h
    rw [hslow, if_pos h]
  · intro h
    rw [hslow, if_neg (not_lt.mpr h)]

/-- C1 witness: a 1001 ms request is appended to the slow-request history of
the fresh monitor state, and a 1000 ms request is not. -/
theorem C1_slow_threshold_witness :
    (recordRequest 0 (rdOf 1001 200) (initialState 0 0 0)).metrics.requests.slowRequests =
      pushBounded 50 (mkReqRecord 0 (rdOf 1001 200)) [] ∧
    (recordRequest 0 (rdOf 1000 200) (initialState 0 0 0)).metrics.requests.slowRequests =
      [] :=
  ⟨(C1_slow_threshold 0 (rdOf 1001 200) (initialState 0 0 0)).1 (by norm_num [rdOf]),
   (C1_slow_threshold 0 (rdOf 1000 200) (initialState 0 0 0)).2 (by norm_num [rdOf])⟩

/-- C1 counterexample: the claim says a request of exactly 1000 ms appears in
the slow-request history; on the code (strict `duration > 1000` test) it
does not — the history stays empty. -/
theorem C1_counterexample :
    (recordRequest 0 (rdOf 1000 200) (initialState 0 0 0)).metrics.requests.slowRequests =
      [] := by
  have h := (recordRequest_fields 0 (rdOf 1000 200) (initialState 0 0 0)).2.2.1
  rw [h, if_neg (by norm_num [rdOf])]
  rfl

/-- C6: `reset` zeroes the request counter, empties the per-method and
per-status maps and the response-time, slow-request and error histories,
clears the database-query counters, history and slow-query list, resets the
start timestamp to now, and leaves the resource histories (in particular
`resources.cpu.history`) unchanged. -/
theorem C6_reset (now : ℤ) (s : MonitorState) :
    (reset now s).metrics.requests.total = 0 ∧
    (reset now s).metrics.requests.byMethod = [] ∧
    (reset now s).metrics.requests.byStatus = [] ∧
    (reset now s).metrics.requests.responseTimes = [] ∧
    (reset now s).metrics.requests.slowRequests = [] ∧
    (reset now s).metrics.requests.errors = [] ∧
    (reset now s).metrics.database.queries.total = 0 ∧
    (reset now s).metrics.database.queries.slow = 0 ∧
    (reset now s).metrics.database.queries.averageTime = 0 ∧
    (reset now s).metrics.database.queries.history = [] ∧
    (reset now s).metrics.database.performance.slowQueries = [] ∧
    (reset now s).startTime = now ∧
    (reset now s).metrics.resources = s.metrics.resources ∧
    (reset now s).metrics.resources.cpu.history = s.metrics.resources.cpu.history := by
  refine ⟨rfl, rfl, rfl, rfl, rfl, rfl, rfl, rfl, rfl, rfl, rfl, rfl, rfl, rfl⟩

/-- C9 (amended): each CPU sample stores
`usage = (user + system delta in microseconds) / 1,000,000 × 100`, i.e. the
delta as a percentage of ONE second of CPU time — five times the figure the
claimed 5-second wall-clock normalisation would give — and appends that value
to the 100-capacity CPU history. -/
theorem C9_cpu_usage (now : ℤ) (dUser dSystem newUser newSystem : ℚ)
    (s : MonitorState) :
    (sampleCpuUsage now dUser dSystem newUser newSystem s).metrics.resources.cpu.usage =
      (dUser + dSystem) / 1000000 * 100 ∧
    (sampleCpuUsage now dUser dSystem newUser newSystem s).metrics.resources.cpu.usage =
      5 * ((dUser + dSystem) / 5000000 * 100) ∧
    (sampleCpuUsage now dUser dSystem newUser newSystem s).metrics.resources.cpu.history =
      pushBounded 100
        { timestamp := now, usage := (dUser + dSystem) / 1000000 * 100
          user := dUser, system := dSystem }
        s.metrics.resources.cpu.history := by
  refine ⟨rfl, ?_, rfl⟩
  show (dUser + dSystem) / 1000000 * 100 = 5 * ((dUser + dSystem) / 5000000 * 100)
  ring

/-- C9 counterexample: a process fully busy for the whole 5-second interval
reports a CPU-time delta of 5,000,000 µs; the code stores `usage = 500`,
while the claimed formula (delta over the 5-second wall-clock budget) gives
`100`. -/
theorem C9_counterexample :
    (sampleCpuUsage 5000 5000000 0 0 0 (initialState 0 0 0)).metrics.resources.cpu.usage =
      500 ∧
    ((5000000 : ℚ) + 0) / 5000000 * 100 = 100 ∧ (500 : ℚ) ≠ 100 := by
  refine ⟨?_, by norm_num, by norm_num⟩
  show ((5000000 : ℚ) + 0) / 1000000 * 100 = 500
  norm_num

/-- C10: `reset` leaves the per-endpoint aggregates untouched (the whole
`metrics.api` record, hence all fields of every aggregate); consequently after
a reset the `totalRequests` of an endpoint (here 2) exceeds the process-wide total
request counter (0). -/
theorem C10_reset_endpoints (now : ℤ) (s : MonitorState) :
    (reset now s).metrics.api = s.metrics.api ∧
    (∀ p : String, assocFind p (reset now s).metrics.api.endpoints =
      assocFind p s.metrics.api.endpoints) ∧
    ((assocFind "/a" (reset 100 (recordRequest 2 (rdOf 5 200)
          (recordRequest 1 (rdOf 7 200) (initialState 0 0 0)))).metrics.api.endpoints).map
        Endpoint.totalRequests = some 2 ∧
      (reset 100 (recordRequest 2 (rdOf 5 200)
          (recordRequest 1 (rdOf 7 200) (initialState 0 0 0)))).metrics.requests.total = 0 ∧
      (0 : ℕ) < 2) := by
  refine ⟨rfl, fun p => rfl, ?_, rfl, by norm_num⟩
  rfl

/-! Bounded-queue lemmas for `pushBounded`. -/

lemma pushBounded_eq_drop {α : Type} (cap : ℕ) (x : α) (l : List α)
    (h : l.length ≤ cap) :
    pushBounded cap x l = (l ++ [x]).drop ((l ++ [x]).length - cap) := by
  simp only [pushBounded, List.length_append, List.length_cons, List.length_nil]
  split
  · rename_i hc
    have h1 : l.length + 0 + 1 - cap = 1 := by omega
    rw [h1]
  · rename_i hc
    have h0 : l.length + 0 + 1 - cap = 0 := by omega
    rw [h0, List.drop_zero]

lemma length_pushBounded_le {α : Type} (cap : ℕ) (x : α) (l : List α)
    (h : l.length ≤ cap) : (pushBounded cap x l).length ≤ cap := by
  rw [pushBounded_eq_drop cap x l h, List.length_drop]
  simp only [List.length_append, List.length_cons, List.length_nil]
  omega

lemma foldl_pushBounded {α : Type} (cap : ℕ) (l : List α) :
    ∀ acc : List α, acc.length ≤ cap →
      l.foldl (fun a x => pushBounded cap x a) acc =
        (acc ++ l).drop ((acc ++ l).length - cap) := by
  induction l with
  | nil =>
    intro acc h
    simp only [List.foldl_nil, List.append_nil]
    rw [Nat.sub_eq_zero_of_le h, List.drop_zero]
  | cons x t ih =>
    intro acc h
    simp only [List.foldl_cons]
    rw [ih (pushBounded cap x acc) (length_pushBounded_le cap x acc h)]
    rw [pushBounded_eq_drop cap x acc h]
    rw [← List.drop_append_of_le_length (Nat.sub_le _ _)]
    rw [List.drop_drop]
    have hl : acc ++ x :: t = (acc ++ [x]) ++ t := by simp
    rw [hl]
    congr 1
    simp only [List.length_drop, List.length_append, List.length_cons, List.length_nil]
    omega

/-- C2: every bounded history is maintained by the append-then-evict-oldest
discipline (`pushBounded`) with capacity 1000 (response times), 50 (slow
requests), 100 (errors) and 50 (slow queries); and for any `N > capacity`
insertions into an initially empty bounded queue the retained content is
exactly the last `capacity` items in their original order, so its length is
exactly the capacity. -/
theorem C2_bounded_histories :
    (∀ (now : ℤ) (rd : RequestData) (s : MonitorState),
      (recordRequest now rd s).metrics.requests.responseTimes =
        pushBounded 1000 (mkRTEntry now rd) s.metrics.requests.responseTimes) ∧
    (∀ (now : ℤ) (rd : RequestData) (s : MonitorState), 1000 < rd.duration →
      (recordRequest now rd s).metrics.requests.slowRequests =
        pushBounded 50 (mkReqRecord now rd) s.metrics.requests.slowRequests) ∧
    (∀ (now : ℤ) (rd : RequestData) (s : MonitorState), 400 ≤ rd.statusCode →
      (recordRequest now rd s).metrics.requests.errors =
        pushBounded 100 (mkReqRecord now rd) s.metrics.requests.errors) ∧
    (∀ (qi : QueryIn) (s : MonitorState), 100 < qi.duration →
      (trackDatabaseQuery qi s).metrics.database.performance.slowQueries =
        pushBounded 50
          { query := qi.query.take 100, duration := qi.duration
            timestamp := qi.now, id := qi.id }
          s.metrics.database.performance.slowQueries) ∧
    (∀ (α : Type) (cap : ℕ) (l : List α), 0 < cap → cap < l.length →
      l.foldl (fun a x => pushBounded cap x a) [] = l.drop (l.length - cap) ∧
      (l.foldl (fun a x => pushBounded cap x a) []).length = cap) := by
  refine ⟨?_, ?_, ?_, ?_, ?_⟩
  · intro now rd s
    exact (recordRequest_fields now rd s).2.1
  · intro now rd s h
    rw [(recordRequest_fields now rd s).2.2.1, if_pos h]
  · intro now rd s h
    rw [(recordRequest_fields now rd s).2.2.2.1, if_pos h]
  · intro qi s h
    rw [(trackDatabaseQuery_fields qi s).2.2, if_pos h]
  · intro α cap l hcap hlen
    have hfold := foldl_pushBounded cap l [] (by simp)
    simp only [List.nil_append] at hfold
    refine ⟨hfold, ?_⟩
    rw [hfold, List.length_drop]
    omega

set_option maxRecDepth 4000 in
/-- C2 witness: concrete instances of every conjunct — a 1500 ms / status-404
request is pushed into the slow and error histories, a 150 ms query into the
slow-query list, and folding 3 pushes through a capacity-2 queue retains
exactly the last 2 items in order. -/
theorem C2_bounded_histories_witness :
    (recordRequest 0 (rdOf 1500 404) (initialState 0 0 0)).metrics.requests.slowRequests =
      pushBounded 50 (mkReqRecord 0 (rdOf 1500 404)) [] ∧
    (recordRequest 0 (rdOf 1500 404) (initialState 0 0 0)).metrics.requests.errors =
      pushBounded 100 (mkReqRecord 0 (rdOf 1500 404)) [] ∧
    (trackDatabaseQuery (qiOf 150) (initialState 0 0 0)).metrics.database.performance.slowQueries =
      pushBounded 50
        { query := "SELECT 1", duration := 150, timestamp := 0, id := "q-1" } [] ∧
    ([10, 20, 30] : List ℕ).foldl (fun a x => pushBounded 2 x a) [] = [20, 30] :=
  ⟨C2_bounded_histories.2.1 0 (rdOf 1500 404) (initialState 0 0 0) (by norm_num [rdOf]),
   C2_bounded_histories.2.2.1 0 (rdOf 1500 404) (initialState 0 0 0) (by norm_num [rdOf]),
   C2_bounded_histories.2.2.2.1 (qiOf 150) (initialState 0 0 0) (by norm_num [qiOf]),
   (C2_bounded_histories.2.2.2.2 ℕ 2 [10, 20, 30] (by norm_num) (by norm_num)).1⟩

/-! Running-average lemmas for `trackDatabaseQuery`. -/

lemma foldl_trackDatabaseQuery (qs : List QueryIn) :
    ∀ s : MonitorState,
      ((qs.foldl (fun st qi => trackDatabaseQuery qi st) s).metrics.database.queries.total =
        s.metrics.database.queries.total + qs.length) ∧
      ((qs.foldl (fun st qi => trackDatabaseQuery qi st) s).metrics.database.queries.averageTime *
          ((s.metrics.database.queries.total + qs.length : ℕ) : ℚ) =
        s.metrics.database.queries.averageTime * ((s.metrics.database.queries.total : ℕ) : ℚ) +
          (qs.map QueryIn.duration).sum) := by
  induction qs with
  | nil =>
    intro s
    refine ⟨by simp, by simp⟩
  | cons qi t ih =>
    intro s
    simp only [List.foldl_cons, List.length_cons, List.map_cons, List.sum_cons]
    obtain ⟨h1, h2, -⟩ := trackDatabaseQuery_fields qi s
    obtain ⟨iht, iha⟩ := ih (trackDatabaseQuery qi s)
    rw [h1] at iht iha
    rw [h2] at iha
    constructor
    · rw [iht]
      omega
    · have hT1 : ((s.metrics.database.queries.total + 1 : ℕ) : ℚ) ≠ 0 :=
        Nat.cast_ne_zero.mpr (Nat.succ_ne_zero _)
      rw [div_mul_cancel₀ _ hT1] at iha
      push_cast at iha ⊢
      linear_combination iha

/-- C8: starting from a fresh (or just-reset) state, after tracking queries
with durations `d1..dn` the stored running average equals the arithmetic
mean `(d1 + ... + dn) / n`; each step maintains it by the incremental
formula `avg = (avg * (n - 1) + duration) / n` with `n` the new total. -/
theorem C8_running_average (s : MonitorState) (qs : List QueryIn)
    (h0 : s.metrics.database.queries.total = 0)
    (ha : s.metrics.database.queries.averageTime = 0)
    (hne : qs ≠ []) :
    (qs.foldl (fun st qi => trackDatabaseQuery qi st) s).metrics.database.queries.averageTime =
      (qs.map QueryIn.duration).sum / ((qs.length : ℕ) : ℚ) ∧
    (∀ (qi : QueryIn) (st : MonitorState),
      (trackDatabaseQuery qi st).metrics.database.queries.averageTime =
        (st.metrics.database.queries.averageTime *
            (((st.metrics.database.queries.total + 1 : ℕ) : ℚ) - 1) + qi.duration) /
          ((st.metrics.database.queries.total + 1 : ℕ) : ℚ)) := by
  constructor
  · have hlen : ((qs.length : ℕ) : ℚ) ≠ 0 := by
      have : qs.length ≠ 0 := by
        intro hz
        exact hne (List.length_eq_zero.mp hz)
      exact_mod_cast this
    obtain ⟨-, havg⟩ := foldl_trackDatabaseQuery qs s
    rw [h0, ha] at havg
    simp only [Nat.zero_add, zero_mul, zero_add] at havg
    rw [eq_div_iff hlen]
    exact havg
  · intro qi st
    exact (trackDatabaseQuery_fields qi st).2.1

/-- C8 witness: tracking queries of 10 ms and 20 ms from the fresh state
stores the arithmetic mean of the two durations. -/
theorem C8_running_average_witness :
    (([qiOf 10, qiOf 20]).foldl (fun st qi => trackDatabaseQuery qi st)
        (initialState 0 0 0)).metrics.database.queries.averageTime =
      (([qiOf 10, qiOf 20]).map QueryIn.duration).sum /
        ((([qiOf 10, qiOf 20] : List QueryIn).length : ℕ) : ℚ) :=
  (C8_running_average (initialState 0 0 0) [qiOf 10, qiOf 20] rfl rfl
    (by simp)).1

/-! Association-list lemmas for the JS-object maps. -/

lemma assocFind_map_update_self {κ ν : Type} [DecidableEq κ]
    (l : List (κ × ν)) (k : κ) (f : ν → ν) :
    assocFind k (l.map fun p => if p.1 = k then (p.1, f p.2) else p) =
      (assocFind k l).map f := by
  induction l with
  | nil => rfl
  | cons p t ih =>
    by_cases h : p.1 = k
    · simp [assocFind, h]
    · simp [assocFind, h, ih]

lemma assocFind_map_update_ne {κ ν : Type} [DecidableEq κ]
    (l : List (κ × ν)) (k k2 : κ) (f : ν → ν) (hne : k2 ≠ k) :
    assocFind k2 (l.map fun p => if p.1 = k then (p.1, f p.2) else p) =
      assocFind k2 l := by
  induction l with
  | nil => rfl
  | cons p t ih =>
    by_cases h : p.1 = k
    · have hk : k ≠ k2 := Ne.symm hne
      simp [assocFind, h, hk, ih]
    · simp [assocFind, h, ih]

lemma assocFind_append_single_self {κ ν : Type} [DecidableEq κ]
    (l : List (κ × ν)) (k : κ) (v : ν) (h : assocFind k l = none) :
    assocFind k (l ++ [(k, v)]) = some v := by
  induction l with
  | nil => simp [assocFind]
  | cons p t ih =>
    by_cases hk : p.1 = k
    · simp [assocFind, hk] at h
    · simp [assocFind, hk] at h ⊢
      exact ih h

lemma assocFind_append_single_ne {κ ν : Type} [DecidableEq κ]
    (l : List (κ × ν)) (k k2 : κ) (v : ν) (hne : k2 ≠ k) :
    assocFind k2 (l ++ [(k, v)]) = assocFind k2 l := by
  induction l with
  | nil => simp [assocFind, Ne.symm hne]
  | cons p t ih =>
    by_cases hk : p.1 = k2
    · simp [assocFind, hk]
    · simp [assocFind, hk, ih]

lemma jsIncr_assocFind_self {κ : Type} [DecidableEq κ] (m : List (κ × ℕ)) (k : κ) :
    (assocFind k (jsIncr m k)).getD 0 = ((assocFind k m).getD 0) + 1 := by
  unfold jsIncr
  cases hm : assocFind k m with
  | some v =>
    rw [assocFind_map_update_self m k (fun n => n + 1), hm]
    rfl
  | none => simp [assocFind_append_single_self m k 1 hm]

lemma trackApiEndpoint_length_of_found (eps : List (String × Endpoint))
    (path m : String) (d : ℚ) (c : ℕ) (e : Endpoint)
    (h : assocFind path eps = some e) :
    (trackApiEndpoint path m d c eps).length = eps.length := by
  unfold trackApiEndpoint
  rw [h]
  simp

/-- C4 (amended): the aggregator keeps ONE `EndpointAggregate` per distinct
path (the map is keyed by path alone; the stored `method` comes from the
creation of the aggregate): each recorded request lazily creates and then updates
the aggregate of its path — count + 1, duration added to the running total,
average recomputed as total/count, running max and min updated, status-code
sub-counter incremented — and a second request to the same path with a
DIFFERENT method updates that same aggregate instead of creating a new one. -/
theorem C4_endpoint_aggregation (eps : List (String × Endpoint))
    (path method : String) (d : ℚ) (c : ℕ) :
    (assocFind path (trackApiEndpoint path method d c eps) =
      some (updateEndpoint d c ((assocFind path eps).getD (emptyEndpoint method)))) ∧
    (∀ p : String, p ≠ path →
      assocFind p (trackApiEndpoint path method d c eps) = assocFind p eps) ∧
    (∀ e : Endpoint,
      (updateEndpoint d c e).totalRequests = e.totalRequests + 1 ∧
      (updateEndpoint d c e).totalDuration = e.totalDuration + d ∧
      (updateEndpoint d c e).averageDuration =
        (e.totalDuration + d) / ((e.totalRequests : ℚ) + 1) ∧
      (updateEndpoint d c e).slowest = max e.slowest d ∧
      (updateEndpoint d c e).fastest =
        some (match e.fastest with | none => d | some f => min f d) ∧
      ((assocFind c (updateEndpoint d c e).statusCodes).getD 0 =
        ((assocFind c e.statusCodes).getD 0) + 1)) ∧
    (∀ (now : ℤ) (rd : RequestData) (s : MonitorState),
      (recordRequest now rd s).metrics.api.endpoints =
        trackApiEndpoint rd.path rd.method rd.duration rd.statusCode
          s.metrics.api.endpoints) ∧
    (∀ (m2 : String) (d2 : ℚ) (c2 : ℕ),
      (trackApiEndpoint path m2 d2 c2 (trackApiEndpoint path method d c eps)).length =
        (trackApiEndpoint path method d c eps).length) := by
  have hself : ∀ (eps2 : List (String × Endpoint)) (m0 : String) (d0 : ℚ) (c0 : ℕ),
      assocFind path (trackApiEndpoint path m0 d0 c0 eps2) =
        some (updateEndpoint d0 c0 ((assocFind path eps2).getD (emptyEndpoint m0))) := by
    intro eps2 m0 d0 c0
    unfold trackApiEndpoint
    cases hm : assocFind path eps2 with
    | some e =>
      rw [assocFind_map_update_self eps2 path (updateEndpoint d0 c0), hm]
      simp
    | none => simp [hm, assocFind_append_single_self eps2 path _ hm]
  refine ⟨hself eps method d c, ?_, ?_, ?_, ?_⟩
  · intro p hp
    unfold trackApiEndpoint
    cases hm : assocFind path eps with
    | some e =>
      rw [assocFind_map_update_ne eps path p (updateEndpoint d c) hp]
    | none => simp [hm, assocFind_append_single_ne eps path p _ hp]
  · intro e
    refine ⟨rfl, rfl, ?_, ?_, ?_, ?_⟩
    · show (e.totalDuration + d) / ((e.totalRequests + 1 : ℕ) : ℚ) =
        (e.totalDuration + d) / ((e.totalRequests : ℚ) + 1)
      push_cast
      ring
    · show (if e.slowest < d then d else e.slowest) = max e.slowest d
      by_cases h : e.slowest < d
      · simp [h, max_eq_right h.le]
      · simp [h, max_eq_left (not_lt.mp h)]
    · show (match e.fastest with
          | none => some d
          | some f => if d < f then some d else some f) =
        some (match e.fastest with | none => d | some f => min f d)
      cases e.fastest with
      | none => rfl
      | some f =>
        by_cases h : d < f
        · simp [h, min_eq_right h.le]
        · simp [h, min_eq_left (not_lt.mp h)]
    · exact jsIncr_assocFind_self e.statusCodes c
  · intro now rd s
    exact (recordRequest_fields now rd s).2.2.2.2
  · intro m2 d2 c2
    exact trackApiEndpoint_length_of_found (trackApiEndpoint path method d c eps)
      path m2 d2 c2 _ (hself eps method d c)

/-- C4 counterexample: a GET and then a POST request to the same path `/a`
produce a SINGLE aggregate (map keyed by path alone) holding both requests
(`totalRequests = 2`), not the two distinct (method, path) aggregates the
claim asserts. -/
theorem C4_counterexample :
    epsTwoMethods.length = 1 ∧
    (assocFind "/a" epsTwoMethods).map Endpoint.totalRequests = some 2 := by
  constructor <;> rfl

/-- C4 witness: instantiating the aggregation theorem at an empty map, a GET
request to `/a` creates exactly the `/a` aggregate and no other key. -/
theorem C4_endpoint_aggregation_witness :
    assocFind "/b" (trackApiEndpoint "/a" "GET" 5 200 []) = none ∧
    assocFind "/a" (trackApiEndpoint "/a" "GET" 5 200 []) =
      some (updateEndpoint 5 200 (emptyEndpoint "GET")) :=
  ⟨(C4_endpoint_aggregation [] "/a" "GET" 5 200).2.1 "/b" (by decide),
   (C4_endpoint_aggregation [] "/a" "GET" 5 200).1⟩

/-! Projection lemmas for `getStats` and rounding helpers. -/

lemma getStats_p50 (now : ℤ) (s : MonitorState) :
    (getStats now s).p50 =
      round2 (pctPick (sortAsc (s.metrics.requests.responseTimes.map RTEntry.duration)) 0.5) :=
  rfl

lemma getStats_p95 (now : ℤ) (s : MonitorState) :
    (getStats now s).p95 =
      round2 (pctPick (sortAsc (s.metrics.requests.responseTimes.map RTEntry.duration)) 0.95) :=
  rfl

lemma getStats_p99 (now : ℤ) (s : MonitorState) :
    (getStats now s).p99 =
      round2 (pctPick (sortAsc (s.metrics.requests.responseTimes.map RTEntry.duration)) 0.99) :=
  rfl

lemma getStats_avg (now : ℤ) (s : MonitorState) :
    (getStats now s).averageResponseTime =
      round2 (if 0 < s.metrics.requests.responseTimes.length then
          s.metrics.requests.responseTimes.foldl (fun sum req => sum + req.duration) 0 /
            (s.metrics.requests.responseTimes.length : ℚ)
        else 0) :=
  rfl

lemma getStats_errorRate (now : ℤ) (s : MonitorState) :
    (getStats now s).errorRate =
      ((jsDiv (s.metrics.requests.errors.length : ℚ)
          (s.metrics.requests.total : ℚ)).map (· * 100)).map round2 :=
  rfl

lemma getStats_requestRate (now : ℤ) (s : MonitorState) :
    (getStats now s).requestRate =
      (jsDiv (s.metrics.requests.total : ℚ)
        (((now - s.startTime : ℤ) : ℚ) / 1000)).map round2 :=
  rfl

lemma round2_zero : round2 0 = 0 := by
  norm_num [round2, jsRound]

lemma round2_thirty : round2 30 = 30 := by
  norm_num [round2, jsRound]

lemma round2_fifty : round2 50 = 50 := by
  norm_num [round2, jsRound]

lemma pctPick_nil (p : ℚ) : pctPick [] p = 0 := rfl

/-- C7 (amended): on an empty response-time history `getStats` succeeds with
zero-valued percentiles and average; with zero recorded requests the request
rate is 0 whenever the uptime is positive, but the error rate is the
NON-FINITE JS value `0/0 = NaN` (modelled `none`), not the number 0. -/
theorem C7_empty_defaults (s : MonitorState) (now : ℤ)
    (hempty : s.metrics.requests.responseTimes = []) :
    ((getStats now s).p50 = 0 ∧ (getStats now s).p95 = 0 ∧ (getStats now s).p99 = 0) ∧
    (getStats now s).averageResponseTime = 0 ∧
    (s.metrics.requests.total = 0 → (getStats now s).errorRate = none) ∧
    (s.metrics.requests.total = 0 → s.startTime < now →
      (getStats now s).requestRate = some 0) := by
  have hsorted : sortAsc (s.metrics.requests.responseTimes.map RTEntry.duration) = [] := by
    rw [hempty]
    rfl
  refine ⟨⟨?_, ?_, ?_⟩, ?_, ?_, ?_⟩
  · rw [getStats_p50, hsorted, pctPick_nil]
    exact round2_zero
  · rw [getStats_p95, hsorted, pctPick_nil]
    exact round2_zero
  · rw [getStats_p99, hsorted, pctPick_nil]
    exact round2_zero
  · rw [getStats_avg, hempty]
    simp only [List.length_nil, lt_irrefl, if_false]
    exact round2_zero
  · intro htot
    rw [getStats_errorRate, htot]
    simp [jsDiv]
  · intro htot hlt
    rw [getStats_requestRate, htot]
    have hne : (((now - s.startTime : ℤ) : ℚ) / 1000) ≠ 0 := by
      have h1 : (0 : ℚ) < ((now - s.startTime : ℤ) : ℚ) := by
        exact_mod_cast Int.sub_pos.mpr hlt
      positivity
    simp only [Nat.cast_zero, jsDiv, if_neg hne]
    simp [round2_zero]

/-- C7 witness: on the fresh monitor state queried 1000 ms after start, the
percentiles and average are 0, the request rate is `some 0`, and the error
rate is the non-finite `none`. -/
theorem C7_empty_defaults_witness :
    (getStats 1000 (initialState 0 0 0)).p50 = 0 ∧
    (getStats 1000 (initialState 0 0 0)).averageResponseTime = 0 ∧
    (getStats 1000 (initialState 0 0 0)).errorRate = none ∧
    (getStats 1000 (initialState 0 0 0)).requestRate = some 0 :=
  ⟨(C7_empty_defaults (initialState 0 0 0) 1000 rfl).1.1,
   (C7_empty_defaults (initialState 0 0 0) 1000 rfl).2.1,
   (C7_empty_defaults (initialState 0 0 0) 1000 rfl).2.2.1 rfl,
   (C7_empty_defaults (initialState 0 0 0) 1000 rfl).2.2.2 rfl (by decide)⟩

/-- C7 counterexample: the claim says the error rate on a state with zero
recorded requests is the number 0; the code computes `0/0`, which is the
non-finite JS `NaN` (modelled `none`), not a number. -/
theorem C7_counterexample :
    (getStats 1000 (initialState 0 0 0)).errorRate = none := by
  rw [getStats_errorRate]
  simp [jsDiv, initialState]

/-! Percentile evaluation helpers. -/

lemma sortAsc_sorted (l : List ℚ) : (sortAsc l).Sorted (· ≤ ·) :=
  List.sorted_insertionSort _ l

lemma sortAsc_perm (l : List ℚ) : (sortAsc l).Perm l :=
  List.perm_insertionSort _ l

lemma fiveState_durations :
    fiveState.metrics.requests.responseTimes.map RTEntry.duration =
      [10, 20, 30, 40, 50] :=
  rfl

lemma floor_five_half : ⌊((5 : ℚ)) * 0.5⌋₊ = 2 := by
  rw [show (5 : ℚ) * 0.5 = ((5 : ℕ) : ℚ) / ((2 : ℕ) : ℚ) by norm_num]
  rw [Nat.floor_div_nat, Nat.floor_natCast]

lemma floor_five_ninetyfive : ⌊((5 : ℚ)) * 0.95⌋₊ = 4 := by
  rw [show (5 : ℚ) * 0.95 = ((19 : ℕ) : ℚ) / ((4 : ℕ) : ℚ) by norm_num]
  rw [Nat.floor_div_nat, Nat.floor_natCast]

lemma pctPick_five_half : pctPick [10, 20, 30, 40, 50] 0.5 = 30 := by
  show ([(10 : ℚ), 20, 30, 40, 50]).getD
    ⌊(([(10 : ℚ), 20, 30, 40, 50].length : ℕ) : ℚ) * 0.5⌋₊ 0 = 30
  rw [show (([(10 : ℚ), 20, 30, 40, 50].length : ℕ) : ℚ) = (5 : ℚ) by norm_num]
  rw [floor_five_half]
  rfl

lemma pctPick_five_ninetyfive : pctPick [10, 20, 30, 40, 50] 0.95 = 50 := by
  show ([(10 : ℚ), 20, 30, 40, 50]).getD
    ⌊(([(10 : ℚ), 20, 30, 40, 50].length : ℕ) : ℚ) * 0.95⌋₊ 0 = 50
  rw [show (([(10 : ℚ), 20, 30, 40, 50].length : ℕ) : ℚ) = (5 : ℚ) by norm_num]
  rw [floor_five_ninetyfive]
  rfl

/-- C3: the percentile fields of `getStats` pick, from the ascending sort of
the retained durations (characterised abstractly as the unique sorted
permutation), the element at index `floor(p × length)` with no interpolation
(defaulting to 0 on an empty history); on retained durations
`[10, 20, 30, 40, 50]` this yields p50 = 30 and p95 = 50. -/
theorem C3_percentiles (s : MonitorState) (now : ℤ) :
    (∀ sorted : List ℚ,
      sorted.Perm (s.metrics.requests.responseTimes.map RTEntry.duration) →
      sorted.Sorted (· ≤ ·) →
      ((getStats now s).p50 = round2 (sorted.getD ⌊(sorted.length : ℚ) * 0.5⌋₊ 0) ∧
       (getStats now s).p95 = round2 (sorted.getD ⌊(sorted.length : ℚ) * 0.95⌋₊ 0) ∧
       (getStats now s).p99 = round2 (sorted.getD ⌊(sorted.length : ℚ) * 0.99⌋₊ 0))) ∧
    (s.metrics.requests.responseTimes = [] →
      ((getStats now s).p50 = 0 ∧ (getStats now s).p95 = 0 ∧ (getStats now s).p99 = 0)) ∧
    ((getStats 1000 fiveState).p50 = 30 ∧ (getStats 1000 fiveState).p95 = 50) := by
  refine ⟨?_, ?_, ?_, ?_⟩
  · intro sorted hperm hsort
    have hs : sortAsc (s.metrics.requests.responseTimes.map RTEntry.duration) = sorted :=
      List.eq_of_perm_of_sorted
        ((sortAsc_perm _).trans hperm.symm)
        (sortAsc_sorted _) hsort
    exact ⟨by rw [getStats_p50, hs]; rfl,
           by rw [getStats_p95, hs]; rfl,
           by rw [getStats_p99, hs]; rfl⟩
  · intro hempty
    have hsorted : sortAsc (s.metrics.requests.responseTimes.map RTEntry.duration) = [] := by
      rw [hempty]
      rfl
    refine ⟨?_, ?_, ?_⟩
    · rw [getStats_p50, hsorted, pctPick_nil]
      exact round2_zero
    · rw [getStats_p95, hsorted, pctPick_nil]
      exact round2_zero
    · rw [getStats_p99, hsorted, pctPick_nil]
      exact round2_zero
  · rw [getStats_p50, fiveState_durations,
      show sortAsc [(10 : ℚ), 20, 30, 40, 50] = [10, 20, 30, 40, 50] by decide,
      pctPick_five_half]
    exact round2_thirty
  · rw [getStats_p95, fiveState_durations,
      show sortAsc [(10 : ℚ), 20, 30, 40, 50] = [10, 20, 30, 40, 50] by decide,
      pctPick_five_ninetyfive]
    exact round2_fifty

/-- C3 witness: the abstract-sort characterisation applied to `fiveState`
with the concrete sorted list `[10, 20, 30, 40, 50]`. -/
theorem C3_percentiles_witness :
    (getStats 1000 fiveState).p50 =
      round2 (([10, 20, 30, 40, 50] : List ℚ).getD
        ⌊(([10, 20, 30, 40, 50] : List ℚ).length : ℚ) * 0.5⌋₊ 0) ∧
    (getStats 1000 fiveState).p95 =
      round2 (([10, 20, 30, 40, 50] : List ℚ).getD
        ⌊(([10, 20, 30, 40, 50] : List ℚ).length : ℚ) * 0.95⌋₊ 0) :=
  ⟨((C3_percentiles fiveState 1000).1 [10, 20, 30, 40, 50]
      (List.Perm.refl _) (by decide)).1,
   ((C3_percentiles fiveState 1000).1 [10, 20, 30, 40, 50]
      (List.Perm.refl _) (by decide)).2.1⟩

/-! State effect of the `GET /api/performance/requests` handler. -/

lemma handlePerfRequests_state (q : ReqQuery) (s : MonitorState) :
    (handlePerfRequests q s).1 =
      if (q.statusCode.isNone && q.method.isNone && q.path.isNone) = true then
        setResponseTimes s
          (jsSortEntries q.sortBy q.sortOrder s.metrics.requests.responseTimes)
      else s := by
  obtain ⟨lim, sb, so, sc, me, pa⟩ := q
  cases sc <;> cases me <;> cases pa <;>
    simp [handlePerfRequests, setResponseTimes]

lemma jsSortEntries_perm (k ord : String) (l : List RTEntry) :
    (jsSortEntries k ord l).Perm l := by
  unfold jsSortEntries
  split
  · exact List.perm_insertionSort _ _
  · exact List.perm_insertionSort _ _

/-- C5 (amended): `getStats` never mutates the state, and the
`GET /api/performance/requests` handler leaves the state unchanged whenever
at least one of the statusCode/method/path filters is supplied; with no
filter supplied its in-place sort can only permute the live response-time
history (same entries, every other counter, history and aggregate — in
particular the request total and the endpoint aggregates — unchanged). -/
theorem C5_read_operations (s : MonitorState) (now : ℤ) (q : ReqQuery) :
    (getStatsOp now s).1 = s ∧
    ((q.statusCode.isSome ∨ q.method.isSome ∨ q.path.isSome) →
      (handlePerfRequests q s).1 = s) ∧
    (handlePerfRequests q s).1.metrics.requests.responseTimes.Perm
      s.metrics.requests.responseTimes ∧
    setResponseTimes (handlePerfRequests q s).1 s.metrics.requests.responseTimes = s ∧
    (handlePerfRequests q s).1.metrics.requests.total = s.metrics.requests.total ∧
    (handlePerfRequests q s).1.metrics.api = s.metrics.api := by
  refine ⟨rfl, ?_, ?_, ?_, ?_, ?_⟩
  · intro hfil
    rw [handlePerfRequests_state]
    rw [if_neg]
    intro hc
    rw [Bool.and_eq_true, Bool.and_eq_true] at hc
    rcases hfil with h | h | h
    · rw [Option.isSome_iff_ne_none] at h
      exact h (Option.isNone_iff_eq_none.mp hc.1.1)
    · rw [Option.isSome_iff_ne_none] at h
      exact h (Option.isNone_iff_eq_none.mp hc.1.2)
    · rw [Option.isSome_iff_ne_none] at h
      exact h (Option.isNone_iff_eq_none.mp hc.2)
  · rw [handlePerfRequests_state]
    split
    · show (setResponseTimes s _).metrics.requests.responseTimes.Perm _
      exact jsSortEntries_perm _ _ _
    · exact List.Perm.refl _
  · rw [handlePerfRequests_state]
    split <;> rfl
  · rw [handlePerfRequests_state]
    split <;> rfl
  · rw [handlePerfRequests_state]
    split <;> rfl

/-- C5 witness: with the statusCode filter supplied, handling the request on
the concrete two-entry state returns that state unchanged; and `getStats`
returns it unchanged. -/
theorem C5_read_operations_witness :
    (handlePerfRequests
        { defaultReqQuery with statusCode := some "200" } ceState).1 = ceState ∧
    (getStatsOp 1000 ceState).1 = ceState :=
  ⟨(C5_read_operations ceState 1000
      { defaultReqQuery with statusCode := some "200" }).2.1 (Or.inl rfl),
   (C5_read_operations ceState 1000 defaultReqQuery).1⟩

/-- C5 counterexample: a parameterless `GET /api/performance/requests` (all
filters absent, default timestamp-descending sort) MUTATES the monitor: the
stored response-time history `[rtA, rtB]` is reordered in place by the sort
on the live array, so the state after the read differs from the state before. -/
theorem C5_counterexample :
    (handlePerfRequests defaultReqQuery ceState).1.metrics.requests.responseTimes ≠
      ceState.metrics.requests.responseTimes := by
  rw [handlePerfRequests_state]
  decide
